import Mathlib

/-!
Verification of the Confluence Zones chart-overlay component
(`src/confluence_system/sierra_chart/ConfluenceZones.h`).

The repository ships only the header: constants (`COLOR_L1..L5`,
`ZONE_RECTANGLE_BASE`, `ZONE_LABEL_BASE`, `MIN/MAX/DEFAULT_REFRESH_INTERVAL`),
the `ConfluenceZone` struct, and declarations of `LoadZonesFromFile`,
`ParseZoneFromJson`, `ExtractFloatValue`, `ExtractStringValue`,
`DrawConfluenceZones`, `ClearZoneDrawings`.  The function bodies are not in
the repository, so the pipeline (parser, loader, selection filter, render
reconciler, refresh controller) is modelled from the specification; the
constants and the record structure are taken from the header.

Floating-point prices and scores are embedded as rationals (`ℚ`): every
claim below is about field extraction, comparison and the exact arithmetic
expressions the design prescribes, none about rounding behaviour.
-/

namespace ConfluenceZones

/-- A scalar value appearing in one `key: value` pair of a flat zone-file
object: numbers are unquoted, strings quoted (spec section 4.1 / 6). -/
inductive JsonValue where
  | num (q : ℚ)
  | str (s : String)
deriving DecidableEq, Repr

/-- Modelled from the spec: one flat object-like text fragment, abstracted to
its sequence of `key: value` pairs ("keys in any order, unknown keys
ignored").  The body of the C++ tokenizer is absent from `src/`. -/
abbrev Fragment : Type := List (String × JsonValue)

/-- Modelled from the spec: `ExtractFloatValue` — independent key lookup,
"tolerant of the key being absent or malformed"; yields `none` when the key
is missing or its value is not numeric.  Body absent from `src/`. -/
def ExtractFloatValue : Fragment → String → Option ℚ
  | [], _ => none
  | (k, v) :: rest, key =>
    if k = key then
      match v with
      | .num q => some q
      | .str _ => none
    else ExtractFloatValue rest key

/-- Modelled from the spec: `ExtractStringValue` — independent key lookup for
quoted string values; `none` when absent or non-string.  Body absent from
`src/`. -/
def ExtractStringValue : Fragment → String → Option String
  | [], _ => none
  | (k, v) :: rest, key =>
    if k = key then
      match v with
      | .num _ => none
      | .str s => some s
    else ExtractStringValue rest key

/-- The five recognized level tags (header: `ZONE_L1`..`ZONE_L5`; the file
carries them as the strings `"L1".."L5"`). -/
def levelTags : List String := ["L1", "L2", "L3", "L4", "L5"]

/-- The `ConfluenceZone` struct of the header (`High`, `Low`, `Center`,
`Score`, `SourceCount`, `ColorIntensity`, `ZoneId`, `Color`, `Level`,
`IsValid`), with floats embedded as `ℚ` and `COLORREF` as `ℕ`. -/
structure ConfluenceZone where
  high : ℚ
  low : ℚ
  center : ℚ
  score : ℚ
  sourceCount : ℕ
  colorIntensity : ℚ
  zoneId : ℕ
  color : ℕ
  level : String
  isValid : Bool
deriving DecidableEq, Repr

/-- The default-constructed `ConfluenceZone()` (zero-initialised, not valid). -/
def defaultZone : ConfluenceZone :=
  { high := 0, low := 0, center := 0, score := 0, sourceCount := 0,
    colorIntensity := 0, zoneId := 0, color := 0, level := "", isValid := false }

/-- Clamp a rational into `[lo, hi]`. -/
def clampQ (lo hi x : ℚ) : ℚ := max lo (min hi x)

/-- Modelled from the spec: `ParseZoneFromJson` (body absent from `src/`).
Extract `high`, `low`, `score`, `sourceCount`, `level`, `zoneId` by
independent key lookup; if `high` or `low` cannot be extracted the parse
fails; absent other fields default to zero / empty; `level` is
case-sensitive-matched against the five tags (absent level allowed,
unrecognized tag fails); a record with `high < low` is invalid; on success
`center = (high + low) / 2` and `colorIntensity = clamp(score/100, 0, 1)`.
The function is total: malformed input is signalled only through the `ok`
flag, never by an exception. -/
def ParseZoneFromJson (frag : Fragment) : ConfluenceZone × Bool :=
  match ExtractFloatValue frag "high", ExtractFloatValue frag "low" with
  | some h, some l =>
    let level := (ExtractStringValue frag "level").getD ""
    let score := (ExtractFloatValue frag "score").getD 0
    let ok := decide (l ≤ h) && (decide (level = "") || decide (level ∈ levelTags))
    ({ high := h, low := l, center := (h + l) / 2, score := score,
       sourceCount := (((ExtractFloatValue frag "sourceCount").getD 0).floor).toNat,
       colorIntensity := clampQ 0 1 (score / 100),
       zoneId := (((ExtractFloatValue frag "zoneId").getD 0).floor).toNat,
       color := 0, level := level, isValid := ok }, ok)
  | _, _ => (defaultZone, false)

/-- Modelled from the spec: the loader assigns `zoneId` by 0-based position
when the fragment supplies no explicit id. -/
def assignZoneId (frag : Fragment) (idx : ℕ) (z : ConfluenceZone) : ConfluenceZone :=
  match ExtractFloatValue frag "zoneId" with
  | some _ => z
  | none => { z with zoneId := idx }

/-- Modelled from the spec: the File Loader's accumulation pass — parse each
fragment in file order, keep only records with `ok = true`, assign
positional `zoneId`s; malformed fragments are discarded without aborting
the batch.  Body of `LoadZonesFromFile` absent from `src/`. -/
def loadRecordsAux : List Fragment → ℕ → List ConfluenceZone
  | [], _ => []
  | f :: rest, idx =>
    if (ParseZoneFromJson f).2 then
      assignZoneId f idx (ParseZoneFromJson f).1 :: loadRecordsAux rest (idx + 1)
    else loadRecordsAux rest (idx + 1)

/-- Valid records of a readable file, in file order. -/
def loadRecords (frags : List Fragment) : List ConfluenceZone :=
  loadRecordsAux frags 0

/-- The File Loader's error signal: "file unreadable" is distinct from
"file readable but empty / no valid records" (the latter is `ok []`). -/
inductive LoadResult where
  | unreadable
  | ok (records : List ConfluenceZone)
deriving DecidableEq, Repr

/-- Modelled from the spec: `LoadZonesFromFile` (body absent from `src/`).
The file-system read is embedded as an `Option`: `none` models a file that
cannot be opened or read, `some frags` its fragment list otherwise. -/
def LoadZonesFromFile (file : Option (List Fragment)) : LoadResult :=
  match file with
  | none => .unreadable
  | some frags => .ok (loadRecords frags)

/-- The display policy of spec section 3 / the inputs of
`DrawConfluenceZones` in the header: `minScore`, `showLabels`,
`transparency`, `showL1..showL5`. -/
structure DisplayPolicy where
  minScore : ℚ
  showLabels : Bool
  transparency : ℤ
  showL1 : Bool
  showL2 : Bool
  showL3 : Bool
  showL4 : Bool
  showL5 : Bool
deriving DecidableEq, Repr

/-- Modelled from the spec: the per-level visibility flag for a record's
level tag; an unmatched tag is not shown. -/
def levelVisible (pol : DisplayPolicy) (level : String) : Bool :=
  if level = "L1" then pol.showL1
  else if level = "L2" then pol.showL2
  else if level = "L3" then pol.showL3
  else if level = "L4" then pol.showL4
  else if level = "L5" then pol.showL5
  else false

/-- Modelled from the spec: the Selection Filter — keep a record iff
`score >= minScore` and its level's visibility flag is true, order
preserved (the filtering half of `DrawConfluenceZones`, body absent from
`src/`). -/
def select (records : List ConfluenceZone) (pol : DisplayPolicy) : List ConfluenceZone :=
  records.filter (fun z => decide (pol.minScore ≤ z.score) && levelVisible pol z.level)

/-- Header constant `ZONE_RECTANGLE_BASE`: base drawing line number for zone
rectangles. -/
def ZONE_RECTANGLE_BASE : ℕ := 1000

/-- Header constant `ZONE_LABEL_BASE`: base drawing line number for zone
labels. -/
def ZONE_LABEL_BASE : ℕ := 2000

/-- Modelled from the spec: the rectangle primitive identifier is keyed
deterministically by `zoneId` from the rectangle range. -/
def rectanglePrimitiveId (zoneId : ℕ) : ℕ := ZONE_RECTANGLE_BASE + zoneId

/-- Modelled from the spec: the label primitive identifier is keyed
deterministically by `zoneId` from the label range. -/
def labelPrimitiveId (zoneId : ℕ) : ℕ := ZONE_LABEL_BASE + zoneId

/-- One entry of the persisted render-state: the primitive identifiers
(rectangle plus optional label) currently drawn for a zone, and the
geometry / score last used to draw them (spec section 3, `RenderState`). -/
structure RenderEntry where
  rectId : ℕ
  labelId : Option ℕ
  high : ℚ
  low : ℚ
  score : ℚ
deriving DecidableEq, Repr

/-- The render-state: a mapping from `zoneId` to its drawn primitives,
embedded as an association list (well-formed states have distinct keys). -/
abbrev RenderState : Type := List (ℕ × RenderEntry)

/-- Key lookup in a render-state. -/
def lookupState : RenderState → ℕ → Option RenderEntry
  | [], _ => none
  | (k, e) :: rest, zid => if k = zid then some e else lookupState rest zid

/-- A drawing operation issued against the external drawing service. -/
inductive DrawOp where
  | create (z : ConfluenceZone)
  | update (z : ConfluenceZone)
  | delete (zoneId : ℕ)
deriving DecidableEq, Repr

/-- Count the occurrences of one operation in an issued batch. -/
def countOp (op : DrawOp) : List DrawOp → ℕ
  | [] => 0
  | o :: rest => (if o = op then 1 else 0) + countOp op rest

/-- The render-state entry recorded for a freshly drawn / redrawn zone:
identifiers keyed by `zoneId` (label only when `showLabels`), and the
geometry / score used. -/
def entryFor (pol : DisplayPolicy) (z : ConfluenceZone) : RenderEntry :=
  { rectId := rectanglePrimitiveId z.zoneId,
    labelId := if pol.showLabels then some (labelPrimitiveId z.zoneId) else none,
    high := z.high, low := z.low, score := z.score }

/-- Modelled from the spec: the per-zone half of the Render Reconciler —
a `zoneId` absent from the previous state is created; one present whose
geometry or score changed is updated in place (reusing identifiers); one
present and unchanged issues no operation.  The model compares exactly
(epsilon 0); any non-negative epsilon preserves the theorems below since an
unchanged value is never "changed beyond epsilon". -/
def zoneOps (prev : RenderState) (z : ConfluenceZone) : List DrawOp :=
  match lookupState prev z.zoneId with
  | none => [DrawOp.create z]
  | some e =>
    if e.high = z.high ∧ e.low = z.low ∧ e.score = z.score then []
    else [DrawOp.update z]

/-- Modelled from the spec: the Render Reconciler (drawing half of
`DrawConfluenceZones`, body absent from `src/`).  Set-diff over `zoneId`:
create / update per `zoneOps`, one delete for each previously drawn zone
absent from the selection, and the new state records exactly the selected
zones. -/
def reconcile (sel : List ConfluenceZone) (prev : RenderState) (pol : DisplayPolicy) :
    RenderState × List DrawOp :=
  (sel.map (fun z => (z.zoneId, entryFor pol z)),
   (sel.map (zoneOps prev)).flatten ++
     (prev.filter (fun p => decide (p.1 ∉ sel.map ConfluenceZone.zoneId))).map
       (fun p => DrawOp.delete p.1))

/-- Modelled from the spec: one refresh cycle — File Loader, then Selection
Filter, then Render Reconciler; an unreadable file aborts the cycle after
the Loader, leaving the previous render-state untouched and issuing no
drawing operations. -/
def runRefreshCycle (file : Option (List Fragment)) (pol : DisplayPolicy)
    (prev : RenderState) : RenderState × List DrawOp :=
  match LoadZonesFromFile file with
  | .unreadable => (prev, [])
  | .ok recs => reconcile (select recs pol) prev pol

/-- Header constant `MIN_REFRESH_INTERVAL` (seconds). -/
def MIN_REFRESH_INTERVAL : ℤ := 5

/-- Header constant `MAX_REFRESH_INTERVAL` (seconds). -/
def MAX_REFRESH_INTERVAL : ℤ := 300

/-- Header constant `DEFAULT_REFRESH_INTERVAL` (seconds). -/
def DEFAULT_REFRESH_INTERVAL : ℤ := 30

/-- Modelled from the spec: the Refresh Controller's effective interval —
the configured value clamped to `[MIN, MAX]`, the default when no value is
supplied (clamping logic absent from `src/`; bounds from the header). -/
def effectiveRefreshInterval (configured : Option ℤ) : ℤ :=
  match configured with
  | none => DEFAULT_REFRESH_INTERVAL
  | some v => max MIN_REFRESH_INTERVAL (min MAX_REFRESH_INTERVAL v)

/-- The Windows `RGB(r,g,b)` macro: a packed `COLORREF` with red in the low
byte. -/
def RGB (r g b : ℕ) : ℕ := r + 256 * g + 65536 * b

/-- Header constant `COLOR_L1` (gray). -/
def COLOR_L1 : ℕ := RGB 128 128 128

/-- Header constant `COLOR_L2` (blue). -/
def COLOR_L2 : ℕ := RGB 0 128 255

/-- Header constant `COLOR_L3` (green). -/
def COLOR_L3 : ℕ := RGB 0 200 0

/-- Header constant `COLOR_L4` (orange). -/
def COLOR_L4 : ℕ := RGB 255 128 0

/-- Header constant `COLOR_L5` (red). -/
def COLOR_L5 : ℕ := RGB 255 0 0

/-- Modelled from the spec: the default color of a zone is determined by its
level tag using the header's per-level constants (the assignment inside
`DrawConfluenceZones` is absent from `src/`; the constants and their
level names are the header's). -/
def levelDefaultColor (level : String) : Option ℕ :=
  if level = "L1" then some COLOR_L1
  else if level = "L2" then some COLOR_L2
  else if level = "L3" then some COLOR_L3
  else if level = "L4" then some COLOR_L4
  else if level = "L5" then some COLOR_L5
  else none

/-- Concrete fragment used to instantiate parser theorems: `high` and `low`
present, no level tag. -/
def fragW4 : Fragment := [("high", JsonValue.num 3), ("low", JsonValue.num 1)]

/-- Concrete fragment with `low` missing. -/
def fragW8 : Fragment := [("high", JsonValue.num 5)]

/-- Concrete all-malformed file content (every fragment lacks `low`). -/
def fragsW6 : List Fragment := [[("high", JsonValue.num 1)], [("score", JsonValue.num 9)]]

/-- Concrete display policy used to instantiate reconciler theorems. -/
def polW : DisplayPolicy :=
  { minScore := 0, showLabels := true, transparency := 50,
    showL1 := true, showL2 := true, showL3 := true, showL4 := true, showL5 := true }

/-- Concrete zone used to instantiate reconciler theorems. -/
def zoneW : ConfluenceZone :=
  { high := 211/2, low := 104, center := 419/4, score := 82, sourceCount := 3,
    colorIntensity := 41/50, zoneId := 0, color := 0, level := "L3", isValid := true }

/-- Concrete one-zone render-state used to instantiate the delete theorem. -/
def prevW : RenderState := [(0, entryFor polW zoneW)]

/-!
## Helper lemmas
-/

/-- The record a parse returns carries its success flag in `isValid`. -/
theorem parse_isValid_eq (f : Fragment) :
    (ParseZoneFromJson f).1.isValid = (ParseZoneFromJson f).2 := by
  cases hh : ExtractFloatValue f "high" <;> cases hl : ExtractFloatValue f "low" <;>
    simp [ParseZoneFromJson, hh, hl, defaultZone]

/-- Overriding a missing `zoneId` does not touch the validity flag. -/
theorem assignZoneId_isValid (f : Fragment) (idx : ℕ) (z : ConfluenceZone) :
    (assignZoneId f idx z).isValid = z.isValid := by
  unfold assignZoneId
  cases ExtractFloatValue f "zoneId" <;> rfl

/-- Every record the loader accumulates has a true validity flag. -/
theorem loadRecordsAux_valid (frags : List Fragment) (idx : ℕ) :
    ∀ z ∈ loadRecordsAux frags idx, z.isValid = true := by
  induction frags generalizing idx with
  | nil => intro z hz; cases hz
  | cons f rest ih =>
    intro z hz
    simp only [loadRecordsAux] at hz
    by_cases hok : (ParseZoneFromJson f).2 = true
    · rw [if_pos hok] at hz
      rcases List.mem_cons.mp hz with rfl | hz'
      · rw [assignZoneId_isValid, parse_isValid_eq, hok]
      · exact ih (idx + 1) z hz'
    · rw [if_neg hok] at hz
      exact ih (idx + 1) z hz


/-!
## Claim theorems
-/

/-- Claim C2: whenever the zone-source file cannot be opened or read, the
refresh cycle aborts after the File Loader with zero drawing operations and
the previous render-state entirely unchanged — every previously drawn zone
keeps exactly its entry. -/
theorem c2_unreadable_preserves_state (pol : DisplayPolicy) (prev : RenderState) :
    (runRefreshCycle none pol prev).1 = prev ∧
    (runRefreshCycle none pol prev).2 = [] ∧
    ∀ zid : ℕ, lookupState (runRefreshCycle none pol prev).1 zid = lookupState prev zid :=
  ⟨rfl, rfl, fun _ => rfl⟩

/-- Claim C3: the selection step returns a subsequence of its input (order
preserved), and a record is in the output iff it is in the input, its score
is at least the policy's `minScore`, and its level's visibility flag is
true. -/
theorem c3_select_spec (records : List ConfluenceZone) (pol : DisplayPolicy) :
    List.Sublist (select records pol) records ∧
    ∀ z : ConfluenceZone, z ∈ select records pol ↔
      z ∈ records ∧ pol.minScore ≤ z.score ∧ levelVisible pol z.level = true := by
  refine ⟨List.filter_sublist records, fun z => ?_⟩
  simp [select, List.mem_filter, and_assoc]

/-- Claim C9: the effective refresh interval is the configured value clamped
to `[MIN_REFRESH_INTERVAL, MAX_REFRESH_INTERVAL] = [5, 300]` (nearest bound
when outside, identity inside, never failing), and the default with no
configured value is `DEFAULT_REFRESH_INTERVAL = 30` seconds. -/
theorem c9_refresh_interval_clamped (v : ℤ) :
    MIN_REFRESH_INTERVAL ≤ effectiveRefreshInterval (some v) ∧
    effectiveRefreshInterval (some v) ≤ MAX_REFRESH_INTERVAL ∧
    (v < MIN_REFRESH_INTERVAL → effectiveRefreshInterval (some v) = MIN_REFRESH_INTERVAL) ∧
    (MAX_REFRESH_INTERVAL < v → effectiveRefreshInterval (some v) = MAX_REFRESH_INTERVAL) ∧
    (MIN_REFRESH_INTERVAL ≤ v → v ≤ MAX_REFRESH_INTERVAL →
      effectiveRefreshInterval (some v) = v) ∧
    effectiveRefreshInterval none = 30 ∧
    MIN_REFRESH_INTERVAL = 5 ∧ MAX_REFRESH_INTERVAL = 300 := by
  refine ⟨?_, ?_, ?_, ?_, ?_, rfl, rfl, rfl⟩ <;>
    simp only [effectiveRefreshInterval, MIN_REFRESH_INTERVAL, MAX_REFRESH_INTERVAL,
      DEFAULT_REFRESH_INTERVAL] <;>
    (intros; rw [max_def, min_def]; split_ifs <;> omega)

/-- Witness for C9 at the concrete out-of-range value 2. -/
theorem c9_refresh_interval_clamped_witness :
    (2 : ℤ) < MIN_REFRESH_INTERVAL ∧
    effectiveRefreshInterval (some 2) = MIN_REFRESH_INTERVAL :=
  ⟨by decide, (c9_refresh_interval_clamped 2).2.2.1 (by decide)⟩

/-- Claim C10: the default zone color is a fixed function of the level tag —
L1 gray RGB(128,128,128), L2 blue RGB(0,128,255), L3 green RGB(0,200,0),
L4 orange RGB(255,128,0), L5 red RGB(255,0,0), using the header's
constants on every cycle. -/
theorem c10_level_default_colors :
    levelDefaultColor "L1" = some (RGB 128 128 128) ∧
    levelDefaultColor "L2" = some (RGB 0 128 255) ∧
    levelDefaultColor "L3" = some (RGB 0 200 0) ∧
    levelDefaultColor "L4" = some (RGB 255 128 0) ∧
    levelDefaultColor "L5" = some (RGB 255 0 0) := by
  decide

/-- Counterexample for C7 as stated: the identifier ranges are anchored 1000
apart, so the rectangle identifier of a zone with `zoneId = 1000` collides
with the label identifier of the distinct zone with `zoneId = 0`. -/
theorem c7_counterexample :
    rectanglePrimitiveId 1000 = labelPrimitiveId 0 ∧ (1000 : ℕ) ≠ 0 := by
  decide

/-- Claim C7 (amended): the rectangle and label identifiers are deterministic
functions of `zoneId` (`ZONE_RECTANGLE_BASE + zoneId` and
`ZONE_LABEL_BASE + zoneId`); each is injective, and for zone ids below
1000 — the gap between the two base constants — the two ranges are
disjoint, so no two tracked zones and no rectangle/label pair ever share
an identifier. -/
theorem c7_primitive_ids_disjoint (z1 z2 : ℕ) (h1 : z1 < 1000) (h2 : z2 < 1000) :
    (rectanglePrimitiveId z1 = rectanglePrimitiveId z2 → z1 = z2) ∧
    (labelPrimitiveId z1 = labelPrimitiveId z2 → z1 = z2) ∧
    rectanglePrimitiveId z1 ≠ labelPrimitiveId z2 := by
  simp only [rectanglePrimitiveId, labelPrimitiveId, ZONE_RECTANGLE_BASE, ZONE_LABEL_BASE]
  omega

/-- Witness for C7 (amended) at zone ids 3 and 7. -/
theorem c7_primitive_ids_disjoint_witness :
    ((3 : ℕ) < 1000 ∧ (7 : ℕ) < 1000) ∧ rectanglePrimitiveId 3 ≠ labelPrimitiveId 7 :=
  ⟨⟨by decide, by decide⟩, (c7_primitive_ids_disjoint 3 7 (by decide) (by decide)).2.2⟩

/-- Claim C8: a fragment from which `low` cannot be extracted parses to
`ok = false` (and an invalid record) no matter which other fields are
present; the parser is a total function — failure is signalled only
through the flag, never by an exception. -/
theorem c8_parse_missing_low (frag : Fragment)
    (hlow : ExtractFloatValue frag "low" = none) :
    (ParseZoneFromJson frag).2 = false ∧ (ParseZoneFromJson frag).1.isValid = false := by
  cases hh : ExtractFloatValue frag "high" <;>
    simp [ParseZoneFromJson, hh, hlow, defaultZone]

/-- Witness for C8 on a concrete fragment that has `high` but no `low`. -/
theorem c8_parse_missing_low_witness :
    ExtractFloatValue fragW8 "low" = none ∧ (ParseZoneFromJson fragW8).2 = false :=
  ⟨by decide, (c8_parse_missing_low fragW8 (by decide)).1⟩

/-- Claim C4: a fragment in which `high` and `low` are both extractable with
`high >= low` and a recognized-or-absent level tag parses to `ok = true`,
a valid record, and `center = (high + low) / 2`. -/
theorem c4_parse_center (frag : Fragment) (h l : ℚ)
    (hh : ExtractFloatValue frag "high" = some h)
    (hl : ExtractFloatValue frag "low" = some l)
    (hge : l ≤ h)
    (hlev : ExtractStringValue frag "level" = none ∨
      ∃ s, ExtractStringValue frag "level" = some s ∧ s ∈ levelTags) :
    (ParseZoneFromJson frag).2 = true ∧
    (ParseZoneFromJson frag).1.isValid = true ∧
    (ParseZoneFromJson frag).1.center = (h + l) / 2 := by
  rcases hlev with hnone | ⟨s, hs, hmem⟩
  · simp [ParseZoneFromJson, hh, hl, hnone, hge]
  · simp [ParseZoneFromJson, hh, hl, hs, hge, hmem]

/-- Witness for C4 on a concrete fragment with `high = 3`, `low = 1`, no
level tag. -/
theorem c4_parse_center_witness :
    (ExtractFloatValue fragW4 "high" = some 3 ∧ ExtractFloatValue fragW4 "low" = some 1 ∧
      (1 : ℚ) ≤ 3 ∧ ExtractStringValue fragW4 "level" = none) ∧
    (ParseZoneFromJson fragW4).1.center = (3 + 1) / 2 :=
  ⟨⟨by decide, by decide, by decide, by decide⟩,
   (c4_parse_center fragW4 3 1 (by decide) (by decide) (by decide)
     (Or.inl (by decide))).2.2⟩

/-- An all-malformed fragment list loads to the empty record sequence. -/
theorem loadRecordsAux_nil_of_malformed (frags : List Fragment) (idx : ℕ)
    (hmal : ∀ f ∈ frags, (ParseZoneFromJson f).2 = false) :
    loadRecordsAux frags idx = [] := by
  induction frags generalizing idx with
  | nil => rfl
  | cons f rest ih =>
    simp only [loadRecordsAux, hmal f (List.mem_cons_self f rest), if_neg]
    exact ih (idx + 1) fun g hg => hmal g (List.mem_cons_of_mem f hg)

/-- Claim C6: the File Loader returns only valid records, in order, with an
error signal that distinguishes an unreadable file from a readable file
with no valid records; both an empty file and an all-malformed file load
to the empty sequence without an error. -/
theorem c6_loader_contract (frags : List Fragment) :
    (∀ z ∈ loadRecords frags, z.isValid = true) ∧
    LoadZonesFromFile none = LoadResult.unreadable ∧
    LoadZonesFromFile (some frags) = LoadResult.ok (loadRecords frags) ∧
    LoadZonesFromFile (some frags) ≠ LoadResult.unreadable ∧
    loadRecords ([] : List Fragment) = [] ∧
    ((∀ f ∈ frags, (ParseZoneFromJson f).2 = false) → loadRecords frags = []) :=
  ⟨loadRecordsAux_valid frags 0, rfl, rfl, fun h => LoadResult.noConfusion h, rfl,
   fun hmal => loadRecordsAux_nil_of_malformed frags 0 hmal⟩

/-- Witness for C6 on a concrete all-malformed fragment list. -/
theorem c6_loader_contract_witness :
    (∀ f ∈ fragsW6, (ParseZoneFromJson f).2 = false) ∧ loadRecords fragsW6 = [] :=
  ⟨by decide, (c6_loader_contract fragsW6).2.2.2.2.2 (by decide)⟩

/-- Looking a selected zone's id up in the state the reconciler just wrote
returns exactly that zone's fresh entry (selection ids distinct). -/
theorem lookupState_reconciled (pol : DisplayPolicy) (sel : List ConfluenceZone)
    (hnodup : (sel.map ConfluenceZone.zoneId).Nodup) (z : ConfluenceZone) (hz : z ∈ sel) :
    lookupState (sel.map fun w => (w.zoneId, entryFor pol w)) z.zoneId =
      some (entryFor pol z) := by
  induction sel with
  | nil => cases hz
  | cons a rest ih =>
    simp only [List.map_cons, lookupState]
    rcases List.mem_cons.mp hz with rfl | hz'
    · rw [if_pos rfl]
    · have hne : a.zoneId ≠ z.zoneId := fun heq =>
        (List.nodup_cons.mp hnodup).1 (heq ▸ List.mem_map_of_mem ConfluenceZone.zoneId hz')
      rw [if_neg hne]
      exact ih (List.nodup_cons.mp hnodup).2 hz'

/-- Against the state it just wrote, the reconciler issues no per-zone
operation for any selected zone. -/
theorem zoneOps_reconciled_nil (pol : DisplayPolicy) (sel : List ConfluenceZone)
    (hnodup : (sel.map ConfluenceZone.zoneId).Nodup) (z : ConfluenceZone) (hz : z ∈ sel) :
    zoneOps (sel.map fun w => (w.zoneId, entryFor pol w)) z = [] := by
  unfold zoneOps
  rw [lookupState_reconciled pol sel hnodup z hz]
  simp [entryFor]

/-- Flattening a map with pointwise-empty images is empty. -/
theorem flatten_map_eq_nil {α β : Type} (f : α → List β) (l : List α)
    (h : ∀ a ∈ l, f a = []) : (l.map f).flatten = [] := by
  induction l with
  | nil => rfl
  | cons a rest ih =>
    simp only [List.map_cons, List.flatten_cons, h a (List.mem_cons_self a rest),
      List.nil_append]
    exact ih fun b hb => h b (List.mem_cons_of_mem a hb)

/-- No entry of the state the reconciler just wrote is stale with respect to
the same selection. -/
theorem filter_stale_reconciled_nil (pol : DisplayPolicy) (sel : List ConfluenceZone) :
    ((sel.map fun w => (w.zoneId, entryFor pol w)).filter
      (fun p => decide (p.1 ∉ sel.map ConfluenceZone.zoneId))) = [] := by
  refine List.filter_eq_nil_iff.mpr fun p hp => ?_
  rcases List.mem_map.mp hp with ⟨w, hw, rfl⟩
  simp [List.mem_map_of_mem ConfluenceZone.zoneId hw]

/-- Claim C1: with an unchanged selection (distinct zone ids, as the set-diff
over `zoneId` presumes) and the state produced by the previous run, a
second reconciliation issues zero create/update/delete operations. -/
theorem c1_reconcile_idempotent (sel : List ConfluenceZone) (prev : RenderState)
    (pol : DisplayPolicy) (hnodup : (sel.map ConfluenceZone.zoneId).Nodup) :
    (reconcile sel (reconcile sel prev pol).1 pol).2 = [] := by
  simp only [reconcile]
  rw [flatten_map_eq_nil _ sel fun z hz => zoneOps_reconciled_nil pol sel hnodup z hz,
    filter_stale_reconciled_nil pol sel]
  rfl

/-- Witness for C1: one concrete zone, empty previous state. -/
theorem c1_reconcile_idempotent_witness :
    (([zoneW].map ConfluenceZone.zoneId).Nodup) ∧
    (reconcile [zoneW] (reconcile [zoneW] [] polW).1 polW).2 = [] :=
  ⟨by decide, c1_reconcile_idempotent [zoneW] [] polW (by decide)⟩

/-- `countOp` distributes over append. -/
theorem countOp_append (op : DrawOp) (l1 l2 : List DrawOp) :
    countOp op (l1 ++ l2) = countOp op l1 + countOp op l2 := by
  induction l1 with
  | nil => simp [countOp]
  | cons o rest ih => simp [countOp, ih, Nat.add_assoc]

/-- A single zone's create/update decision never issues a delete. -/
theorem countOp_delete_zoneOps_single (prev : RenderState) (zid : ℕ) (z : ConfluenceZone) :
    countOp (DrawOp.delete zid) (zoneOps prev z) = 0 := by
  unfold zoneOps
  split
  · simp [countOp]
  · split_ifs <;> simp [countOp]

/-- The create/update half of a reconciliation issues no delete. -/
theorem countOp_delete_zoneOps (prev : RenderState) (sel : List ConfluenceZone) (zid : ℕ) :
    countOp (DrawOp.delete zid) (sel.map (zoneOps prev)).flatten = 0 := by
  induction sel with
  | nil => rfl
  | cons z rest ih =>
    simp only [List.map_cons, List.flatten_cons, countOp_append, ih,
      countOp_delete_zoneOps_single]

/-- A zone id outside a state's keys contributes no delete operation. -/
theorem countOp_delete_stale_zero (sel : List ConfluenceZone) (zid : ℕ) :
    ∀ prev : RenderState, zid ∉ prev.map Prod.fst →
    countOp (DrawOp.delete zid)
      ((prev.filter fun p => decide (p.1 ∉ sel.map ConfluenceZone.zoneId)).map
        fun p => DrawOp.delete p.1) = 0 := by
  intro prev
  induction prev with
  | nil => intro _; rfl
  | cons p rest ih =>
    intro hmem
    have hne : DrawOp.delete p.1 ≠ DrawOp.delete zid := by
      simp only [ne_eq, DrawOp.delete.injEq]
      exact fun heq => hmem (heq ▸ List.mem_map_of_mem Prod.fst (List.mem_cons_self p rest))
    have hrest : zid ∉ rest.map Prod.fst := fun hr =>
      hmem (List.mem_cons_of_mem _ hr)
    simp only [List.filter_cons]
    split
    · simp only [List.map_cons, countOp, if_neg hne, Nat.zero_add]
      exact ih hrest
    · exact ih hrest

/-- A previously drawn zone id absent from the selection yields exactly one
delete operation (state keys distinct, as a mapping has). -/
theorem countOp_delete_stale_one (sel : List ConfluenceZone) (zid : ℕ)
    (habs : zid ∉ sel.map ConfluenceZone.zoneId) :
    ∀ prev : RenderState, (prev.map Prod.fst).Nodup → zid ∈ prev.map Prod.fst →
    countOp (DrawOp.delete zid)
      ((prev.filter fun p => decide (p.1 ∉ sel.map ConfluenceZone.zoneId)).map
        fun p => DrawOp.delete p.1) = 1 := by
  intro prev
  induction prev with
  | nil => intro _ hmem; cases hmem
  | cons p rest ih =>
    intro hnodup hmem
    by_cases hk : p.1 = zid
    · subst hk
      have hrest : p.1 ∉ rest.map Prod.fst := (List.nodup_cons.mp hnodup).1
      rw [List.filter_cons, if_pos (decide_eq_true habs), List.map_cons]
      simp only [countOp, if_pos rfl]
      rw [countOp_delete_stale_zero sel p.1 rest hrest]
      simp
    · have hmem' : zid ∈ rest.map Prod.fst := by
        rcases List.mem_map.mp hmem with ⟨q, hq, hqz⟩
        rcases List.mem_cons.mp hq with rfl | hq'
        · exact absurd hqz hk
        · exact hqz ▸ List.mem_map_of_mem Prod.fst hq'
      have hne : DrawOp.delete p.1 ≠ DrawOp.delete zid := by
        simp only [ne_eq, DrawOp.delete.injEq]; exact hk
      have htail := ih (List.nodup_cons.mp hnodup).2 hmem'
      rw [List.filter_cons]
      by_cases hq : (decide (p.1 ∉ sel.map ConfluenceZone.zoneId)) = true
      · rw [if_pos hq, List.map_cons]
        simp only [countOp, if_neg hne, Nat.zero_add]
        exact htail
      · rw [if_neg hq]
        exact htail

/-- Claim C5: a zone drawn in the previous cycle whose id is absent from the
new selection receives exactly one delete operation, and the new state has
no entry for it. -/
theorem c5_reconcile_deletes_absent (sel : List ConfluenceZone) (prev : RenderState)
    (pol : DisplayPolicy) (zid : ℕ)
    (hnodup : (prev.map Prod.fst).Nodup)
    (hmem : zid ∈ prev.map Prod.fst)
    (habs : zid ∉ sel.map ConfluenceZone.zoneId) :
    countOp (DrawOp.delete zid) (reconcile sel prev pol).2 = 1 ∧
    zid ∉ (reconcile sel prev pol).1.map Prod.fst := by
  constructor
  · simp only [reconcile]
    rw [countOp_append, countOp_delete_zoneOps,
      countOp_delete_stale_one sel zid habs prev hnodup hmem]
  · simp only [reconcile, List.map_map]
    simpa [Function.comp] using habs

/-- Witness for C5: the previously drawn zone 0 against an empty selection. -/
theorem c5_reconcile_deletes_absent_witness :
    ((prevW.map Prod.fst).Nodup ∧ 0 ∈ prevW.map Prod.fst ∧
      0 ∉ List.map ConfluenceZone.zoneId []) ∧
    countOp (DrawOp.delete 0) (reconcile [] prevW polW).2 = 1 :=
  ⟨⟨by decide, by decide, by decide⟩,
   (c5_reconcile_deletes_absent [] prevW polW 0 (by decide) (by decide) (by decide)).1⟩

end ConfluenceZones
